import Mathlib

/-!
Shallow embedding of the HoneyHawk detection-and-alerting pipeline:
`src/alerts/logger.py` (AlertLogger), `src/monitor/file_watcher.py`
(CanaryFileHandler / FileWatcher) and `src/monitor/network_monitor.py`
(NetworkMonitor).  Wall-clock instants (`time.time()`) are passed in
explicitly as an `Int` parameter `now`; Python dict payloads in the
`details` field are modelled as strings; the OS-level popup of
`_send_system_notification` is modelled as an `Except String Unit`
parameter describing whether that call raised.
-/

namespace HoneyHawk

/-- The `"type"` field written by `log_alert` / `log_info` / `log_error`. -/
inductive EventKind where
  | SECURITY_ALERT
  | INFO
  | ERROR
  deriving DecidableEq, Repr

/-- One parsed log record, as produced by the three `log_*` writers in
`src/alerts/logger.py`.  `severity` is `none` for records that have no
`"severity"` key (INFO and ERROR records), matching
`alert.get('severity', '')` reads. -/
structure Record where
  kind : EventKind
  severity : Option String
  message : String
  details : String
  epoch : Int
  deriving DecidableEq, Repr

/-- One physical line of a log file: `some r` is a well-formed record,
`none` is a line `json.loads` rejects. -/
abbrev LogLine := Option Record

abbrev LogFile := List LogLine

/-- The per-line `try: json.loads ... except JSONDecodeError: continue`
pattern of every read path: keep the parsable records, in file order. -/
def parseLines (f : LogFile) : List Record :=
  f.filterMap id

/-- State of one `AlertLogger`: the three log files plus the trace of
high-priority notification-hook invocations (`_send_high_priority_alert`:
console emphasis and best-effort OS popup). -/
structure AlertLogger where
  alertsLog : LogFile
  activityLog : LogFile
  errorLog : LogFile
  notifySent : List Record
  deriving Repr

/-- The record built by `log_alert`. -/
def mkAlertEntry (severity message details : String) (now : Int) : Record :=
  { kind := .SECURITY_ALERT, severity := some severity,
    message := message, details := details, epoch := now }

/-- The record built by `log_info` (its dict `details` modelled as a string). -/
def mkInfoEntry (message details : String) (now : Int) : Record :=
  { kind := .INFO, severity := none,
    message := message, details := details, epoch := now }

/-- The record built by `log_error`. -/
def mkErrorEntry (message errorDetails : String) (now : Int) : Record :=
  { kind := .ERROR, severity := none,
    message := message, details := errorDetails, epoch := now }

/-- Embeds `_write_to_log`: append one well-formed line to a file. -/
def writeToLog (f : LogFile) (entry : Record) : LogFile :=
  f ++ [some entry]

/-- Embeds `log_error`. -/
def log_error (s : AlertLogger) (message errorDetails : String) (now : Int) :
    AlertLogger :=
  { s with errorLog := writeToLog s.errorLog (mkErrorEntry message errorDetails now) }

/-- Embeds `log_info`. -/
def log_info (s : AlertLogger) (message details : String) (now : Int) :
    AlertLogger :=
  { s with activityLog := writeToLog s.activityLog (mkInfoEntry message details now) }

/-- Embeds `_send_system_notification`: the platform popup attempt is the
`popup` argument; a raised exception is caught and logged through
`log_error ("Failed to send system notification: " ++ e)`. -/
def sendSystemNotification (s : AlertLogger) (popup : Except String Unit)
    (now : Int) : AlertLogger :=
  match popup with
  | .ok _ => s
  | .error e => log_error s ("Failed to send system notification: " ++ e) "" now

/-- Embeds `_send_high_priority_alert`: console emphasis plus the OS popup;
the invocation itself is recorded on `notifySent`. -/
def sendHighPriorityAlert (s : AlertLogger) (alert : Record)
    (popup : Except String Unit) (now : Int) : AlertLogger :=
  sendSystemNotification { s with notifySent := s.notifySent ++ [alert] } popup now

/-- Embeds `log_alert`: write the entry to the alerts log and the activity log,
then, exactly when `severity == "HIGH"`, invoke the high-priority hook. -/
def log_alert (s : AlertLogger) (severity message details : String) (now : Int)
    (popup : Except String Unit) : AlertLogger :=
  let entry := mkAlertEntry severity message details now
  let s1 := { s with
    alertsLog := writeToLog s.alertsLog entry,
    activityLog := writeToLog s.activityLog entry }
  if severity == "HIGH" then sendHighPriorityAlert s1 entry popup now else s1

/-- Embeds `AlertLogger.__init__`: fresh empty files, then
`log_info "AlertLogger initialized"`. -/
def initLogger (now : Int) : AlertLogger :=
  log_info { alertsLog := [], activityLog := [], errorLog := [], notifySent := [] }
    "AlertLogger initialized" "" now

/-- Embeds `get_recent_alerts(hours)`: scan the alerts log, skip malformed lines,
keep records with `epoch > now - hours*3600`. -/
def get_recent_alerts (s : AlertLogger) (now : Int) (hours : Int) : List Record :=
  let cutoff := now - hours * 3600
  (parseLines s.alertsLog).filter (fun a => cutoff < a.epoch)

/-- The dict returned by `get_alert_summary`. -/
structure AlertSummary where
  total_alerts : Nat
  high_severity : Nat
  medium_severity : Nat
  low_severity : Nat
  last_24h : Nat
  last_alert : Option Record
  deriving DecidableEq, Repr

def initSummary : AlertSummary :=
  { total_alerts := 0, high_severity := 0, medium_severity := 0,
    low_severity := 0, last_24h := 0, last_alert := none }

/-- Python's `str.upper()` as applied to the `"severity"` value (the
stored severities are ASCII, where `.upper()` is per-character
uppercasing). -/
def pyUpper (s : String) : String := ⟨s.data.map Char.toUpper⟩

/-- The `summary["last_alert"]` update: replace only on strictly larger `epoch`. -/
def lastAlertStep (o : Option Record) (alert : Record) : Option Record :=
  match o with
  | none => some alert
  | some la => if la.epoch < alert.epoch then some alert else o

/-- One iteration of the `get_alert_summary` loop body on a parsed record;
each field carries the increment the corresponding Python statement makes
(the `elif` chain appears as the nested conditionals). -/
def summaryStep (cutoff24 : Int) (acc : AlertSummary) (alert : Record) :
    AlertSummary :=
  let severity := pyUpper (alert.severity.getD "")
  { total_alerts := acc.total_alerts + 1,
    high_severity := acc.high_severity + (if severity == "HIGH" then 1 else 0),
    medium_severity := acc.medium_severity +
      (if severity == "HIGH" then 0 else if severity == "MEDIUM" then 1 else 0),
    low_severity := acc.low_severity +
      (if severity == "HIGH" then 0 else if severity == "MEDIUM" then 0
       else if severity == "LOW" then 1 else 0),
    last_24h := acc.last_24h + (if cutoff24 < alert.epoch then 1 else 0),
    last_alert := lastAlertStep acc.last_alert alert }

/-- Embeds `get_alert_summary`: one pass over the alerts log. -/
def get_alert_summary (s : AlertLogger) (now : Int) : AlertSummary :=
  (parseLines s.alertsLog).foldl (summaryStep (now - 24 * 3600)) initSummary

/-- The snapshot document written by `export_logs`. -/
structure ExportData where
  export_timestamp : Int
  hours_exported : Int
  alerts : List Record
  activities : List Record
  errors : List Record
  deriving DecidableEq, Repr

/-- Embeds `export_logs(output_file, hours)`: builds the snapshot (note: the code
fills `alerts` from the alerts log and `activities` from the activity log,
but never reads the error log, so `errors` stays the initial `[]`), then
logs an INFO record about the export.  `outputFile` only feeds that INFO
message. -/
def export_logs (s : AlertLogger) (outputFile : String) (now : Int)
    (hours : Int) : ExportData × AlertLogger :=
  let cutoff := now - hours * 3600
  let data : ExportData :=
    { export_timestamp := now, hours_exported := hours,
      alerts := (parseLines s.alertsLog).filter (fun a => cutoff < a.epoch),
      activities := (parseLines s.activityLog).filter (fun a => cutoff < a.epoch),
      errors := [] }
  (data, log_info s ("Exported logs to " ++ outputFile) "" now)

/-! ### Operation sequences against one store

The four writer entry points of the logger, as an operation alphabet, so
that properties can be stated over every sequence of appended events. -/

inductive LogOp where
  | opAlert (severity message details : String) (now : Int) (popup : Except String Unit)
  | opInfo (message details : String) (now : Int)
  | opError (message errorDetails : String) (now : Int)
  | opExport (outputFile : String) (now : Int) (hours : Int)

/-- Apply one operation to the store (the export discards its snapshot). -/
def applyOp (s : AlertLogger) : LogOp → AlertLogger
  | .opAlert sev msg det now popup => log_alert s sev msg det now popup
  | .opInfo msg det now => log_info s msg det now
  | .opError msg det now => log_error s msg det now
  | .opExport f now hours => (export_logs s f now hours).2

def runOps (s : AlertLogger) (ops : List LogOp) : AlertLogger :=
  ops.foldl applyOp s

/-- The event record each operation appends (for the export operation,
the INFO record its trailing `log_info` writes). -/
def opRecord : LogOp → Record
  | .opAlert sev msg det now _ => mkAlertEntry sev msg det now
  | .opInfo msg det now => mkInfoEntry msg det now
  | .opError msg det now => mkErrorEntry msg det now
  | .opExport f now _ => mkInfoEntry ("Exported logs to " ++ f) "" now

/-- The record an operation appends to the alerts log, when any. -/
def opAlertRecord : LogOp → Option Record
  | .opAlert sev msg det now _ => some (mkAlertEntry sev msg det now)
  | _ => none

/-! ### File watcher (`src/monitor/file_watcher.py`) -/

/-- A watchdog filesystem event as seen by `CanaryFileHandler`. -/
structure FSEvent where
  event_type : String
  src_path : String
  is_directory : Bool
  deriving DecidableEq, Repr

/-- The environment context gathered by `_get_system_info` (already
degraded to `"unknown"` placeholders on lookup failure). -/
structure SystemInfo where
  hostname : String
  os : String
  user : String
  deriving DecidableEq, Repr

/-- Embeds `Path(p).name`: the final path component. -/
def pathName (p : String) : String :=
  (p.splitOn "/").getLastD p

/-- The `alert_details` f-string of `_handle_file_access`. -/
def accessDetails (e : FSEvent) (timeStr : String) (info : SystemInfo) : String :=
  "\nFile: " ++ pathName e.src_path ++
  "\nFull Path: " ++ e.src_path ++
  "\nEvent: " ++ e.event_type ++
  "\nTime: " ++ timeStr ++
  "\nSystem: " ++ info.hostname ++
  "\nOS: " ++ info.os ++
  "\nUser: " ++ info.user ++ "\n        "

/-- Embeds `_handle_file_access`: one HIGH alert. -/
def handleFileAccess (s : AlertLogger) (e : FSEvent) (timeStr : String)
    (info : SystemInfo) (now : Int) (popup : Except String Unit) : AlertLogger :=
  log_alert s "HIGH" "CANARY TRIGGERED - File Access Detected!"
    (accessDetails e timeStr info) now popup

/-- The `alert_details` f-string of `_handle_file_modification`. -/
def modificationDetails (e : FSEvent) (timeStr : String) (info : SystemInfo) : String :=
  "\nFile: " ++ pathName e.src_path ++
  "\nEvent: " ++ e.event_type ++
  "\nTime: " ++ timeStr ++
  "\nSystem: " ++ info.hostname ++ "\n        "

/-- Embeds `_handle_file_modification`: one MEDIUM alert. -/
def handleFileModification (s : AlertLogger) (e : FSEvent) (timeStr : String)
    (info : SystemInfo) (now : Int) (popup : Except String Unit) : AlertLogger :=
  log_alert s "MEDIUM" ("Canary File Modified - " ++ e.event_type)
    (modificationDetails e timeStr info) now popup

/-- Embeds `CanaryFileHandler.on_any_event`: discard directory events, classify
`opened`/`accessed` as access (HIGH) and `modified`/`moved`/`deleted` as
mutation (MEDIUM); all other subtypes are ignored. -/
def on_any_event (s : AlertLogger) (e : FSEvent) (timeStr : String)
    (info : SystemInfo) (now : Int) (popup : Except String Unit) : AlertLogger :=
  if e.is_directory then s
  else if e.event_type == "opened" || e.event_type == "accessed" then
    handleFileAccess s e timeStr info now popup
  else if e.event_type == "modified" || e.event_type == "moved"
      || e.event_type == "deleted" then
    handleFileModification s e timeStr info now popup
  else s

/-- Detector-local state of a `FileWatcher`. -/
structure FileWatcher where
  is_running : Bool
  observerRunning : Bool
  deriving DecidableEq, Repr

/-- Embeds `FileWatcher.stop`: only when running, stop and join the observer,
clear the flag, and log an INFO record. -/
def FileWatcher.stop (w : FileWatcher) (s : AlertLogger) (now : Int) :
    FileWatcher × AlertLogger :=
  if w.is_running then
    ({ is_running := false, observerRunning := false },
     log_info s "File watcher stopped" "" now)
  else (w, s)

/-! ### Network monitor (`src/monitor/network_monitor.py`) -/

/-- Detector-local state of a `NetworkMonitor`; `monitors` holds the
spawned daemon threads, none of which has a `stop` attribute. -/
structure NetworkMonitor where
  is_running : Bool
  monitorThreads : Nat
  deriving DecidableEq, Repr

/-- Embeds `NetworkMonitor.stop`: clear the flag, skip every thread in
`monitors` (no `stop` attribute), log an INFO record. -/
def NetworkMonitor.stop (m : NetworkMonitor) (s : AlertLogger) (now : Int) :
    NetworkMonitor × AlertLogger :=
  ({ m with is_running := false },
   log_info s "Network monitoring stopped" "" now)

/-- The decoy banner `client_socket.send` writes. -/
def sshBanner : String := "SSH-2.0-OpenSSH_8.9\r\n"

/-- The `alert_details` f-string of the honeypot accept-loop body. -/
def connectionDetails (ip : String) (port : Nat) (timeStr : String) : String :=
  "\nService: Fake SSH Server\nClient IP: " ++ ip ++
  "\nClient Port: " ++ toString port ++
  "\nTime: " ++ timeStr ++
  "\nLikely Cause: Someone tried to use the fake SSH key\n                        "

/-- Outcome of one iteration of the accept-loop body on an accepted
connection: the updated store, what was sent on the socket (`none` when
the send raised), the `time.sleep` delay before `close`, and whether the
loop proceeds to the next `accept`. -/
structure ConnOutcome where
  logger : AlertLogger
  bannerSent : Option String
  closeDelaySeconds : Nat
  loopContinues : Bool
  deriving Repr

/-- The per-connection body of `_start_fake_ssh_server`: log one HIGH
alert naming the remote address/port, then send the banner, sleep 2
seconds and close — any send/close failure (`sendCloseFails`) is swallowed
by the bare `except: pass` and the loop continues either way. -/
def handleConnection (s : AlertLogger) (ip : String) (port : Nat)
    (timeStr : String) (now : Int) (popup : Except String Unit)
    (sendCloseFails : Bool) : ConnOutcome :=
  let s := log_alert s "HIGH" "CANARY TRIGGERED - SSH Connection Attempt!"
    (connectionDetails ip port timeStr) now popup
  { logger := s,
    bannerSent := if sendCloseFails then none else some sshBanner,
    closeDelaySeconds := 2,
    loopContinues := true }

/-- A store whose alerts log holds exactly the well-formed records `rs`
(the activity log mirrors them, as `log_alert` would leave it). -/
def storeWithAlerts (rs : List Record) : AlertLogger :=
  { alertsLog := rs.map some, activityLog := rs.map some,
    errorLog := [], notifySent := [] }

/-- Two distinct alert records sharing one epoch (scan-order tie). -/
def tieRec1 : Record := mkAlertEntry "HIGH" "first at epoch 100" "" 100

def tieRec2 : Record := mkAlertEntry "HIGH" "second at epoch 100" "" 100

/-- Alert records carrying severities `[HIGH, HIGH, MEDIUM, LOW, UNKNOWN]`. -/
def sampleSeverityRecords : List Record :=
  [mkAlertEntry "HIGH" "a1" "" 10, mkAlertEntry "HIGH" "a2" "" 20,
   mkAlertEntry "MEDIUM" "a3" "" 30, mkAlertEntry "LOW" "a4" "" 40,
   mkAlertEntry "UNKNOWN" "a5" "" 50]

/-- A store whose alerts and activity logs each hold one malformed line
between two well-formed records. -/
def storeMal (r1 r2 a1 a2 : Record) : AlertLogger :=
  { alertsLog := [some r1, none, some r2],
    activityLog := [some a1, none, some a2],
    errorLog := [], notifySent := [] }

/-- The same store without the malformed lines. -/
def storeClean (r1 r2 a1 a2 : Record) : AlertLogger :=
  { alertsLog := [some r1, some r2],
    activityLog := [some a1, some a2],
    errorLog := [], notifySent := [] }

/-- An error record, present in the error log during an export. -/
def errSample : Record := mkErrorEntry "disk failure" "details" 1000

/-- A store observed while its error log holds one in-window record. -/
def storeWithErr : AlertLogger :=
  { alertsLog := [], activityLog := [], errorLog := [some errSample],
    notifySent := [] }

/-! ### Helper lemmas -/

theorem parseLines_map_some (rs : List Record) : parseLines (rs.map some) = rs := by
  simp [parseLines]

theorem parseLines_append (f g : LogFile) :
    parseLines (f ++ g) = parseLines f ++ parseLines g := by
  simp [parseLines]

theorem log_alert_alertsLog (s : AlertLogger) (sev msg det : String) (now : Int)
    (popup : Except String Unit) :
    (log_alert s sev msg det now popup).alertsLog =
      s.alertsLog ++ [some (mkAlertEntry sev msg det now)] := by
  unfold log_alert
  by_cases h : sev == "HIGH" <;>
    simp [h, sendHighPriorityAlert, sendSystemNotification, log_error, writeToLog] <;>
    cases popup <;> simp [log_error, writeToLog]

theorem log_alert_activityLog (s : AlertLogger) (sev msg det : String) (now : Int)
    (popup : Except String Unit) :
    (log_alert s sev msg det now popup).activityLog =
      s.activityLog ++ [some (mkAlertEntry sev msg det now)] := by
  unfold log_alert
  by_cases h : sev == "HIGH" <;>
    simp [h, sendHighPriorityAlert, sendSystemNotification, log_error, writeToLog] <;>
    cases popup <;> simp [log_error, writeToLog]

theorem log_alert_notifySent (s : AlertLogger) (sev msg det : String) (now : Int)
    (popup : Except String Unit) :
    (log_alert s sev msg det now popup).notifySent =
      s.notifySent ++ (if sev == "HIGH" then [mkAlertEntry sev msg det now] else []) := by
  unfold log_alert
  by_cases h : sev == "HIGH" <;>
    simp [h, sendHighPriorityAlert, sendSystemNotification, log_error, writeToLog] <;>
    cases popup <;> simp [log_error, writeToLog]

theorem log_alert_errorLog (s : AlertLogger) (sev msg det : String) (now : Int)
    (popup : Except String Unit) :
    (log_alert s sev msg det now popup).errorLog =
      s.errorLog ++
        (if sev == "HIGH" then
          (match popup with
           | .ok _ => []
           | .error e =>
             [some (mkErrorEntry ("Failed to send system notification: " ++ e) "" now)])
         else []) := by
  unfold log_alert
  by_cases h : sev == "HIGH" <;>
    simp [h, sendHighPriorityAlert, sendSystemNotification, log_error, writeToLog] <;>
    cases popup <;> simp [log_error, writeToLog]

theorem runOps_alertsLog (ops : List LogOp) (s : AlertLogger) :
    (runOps s ops).alertsLog =
      s.alertsLog ++ (ops.filterMap opAlertRecord).map some := by
  induction ops generalizing s with
  | nil => simp [runOps]
  | cons op t ih =>
    have step : (applyOp s op).alertsLog =
        s.alertsLog ++ ((opAlertRecord op).map some).toList := by
      cases op with
      | opAlert sev msg det now popup =>
        simp [applyOp, opAlertRecord, log_alert_alertsLog]
      | opInfo msg det now => simp [applyOp, opAlertRecord, log_info]
      | opError msg det now => simp [applyOp, opAlertRecord, log_error]
      | opExport f now hours => simp [applyOp, opAlertRecord, export_logs, log_info]
    have htail : runOps s (op :: t) = runOps (applyOp s op) t := by
      simp [runOps]
    rw [htail, ih, step]
    cases op <;> simp [opAlertRecord]

/-- Only `opAlert` operations reach the alerts log, and their records are
exactly the appended records with `kind == SECURITY_ALERT`. -/
theorem filterMap_opAlertRecord (ops : List LogOp) :
    ops.filterMap opAlertRecord =
      (ops.map opRecord).filter (fun r => r.kind == EventKind.SECURITY_ALERT) := by
  induction ops with
  | nil => rfl
  | cons op t ih =>
    cases op <;>
      simp [opAlertRecord, opRecord, mkAlertEntry, mkInfoEntry, mkErrorEntry, ih]

theorem severityWeight_medium (s : String) :
    (if s = "HIGH" then 0 else if s = "MEDIUM" then (1 : Nat) else 0) =
      if s = "MEDIUM" then 1 else 0 := by
  by_cases h : s = "HIGH"
  · subst h
    simp
  · simp [h]

theorem severityWeight_low (s : String) :
    (if s = "HIGH" then 0 else if s = "MEDIUM" then 0
     else if s = "LOW" then (1 : Nat) else 0) =
      if s = "LOW" then 1 else 0 := by
  by_cases h : s = "HIGH"
  · subst h
    simp
  · by_cases hm : s = "MEDIUM"
    · subst hm
      simp
    · simp [h, hm]

theorem foldl_summary_total (c : Int) (rs : List Record) (acc : AlertSummary) :
    (rs.foldl (summaryStep c) acc).total_alerts = acc.total_alerts + rs.length := by
  induction rs generalizing acc with
  | nil => simp
  | cons r t ih => simp [ih, summaryStep]; omega

theorem foldl_summary_high (c : Int) (rs : List Record) (acc : AlertSummary) :
    (rs.foldl (summaryStep c) acc).high_severity =
      acc.high_severity +
        rs.countP (fun r => pyUpper (r.severity.getD "") == "HIGH") := by
  induction rs generalizing acc with
  | nil => simp
  | cons r t ih => simp [ih, summaryStep, List.countP_cons]; omega

theorem foldl_summary_medium (c : Int) (rs : List Record) (acc : AlertSummary) :
    (rs.foldl (summaryStep c) acc).medium_severity =
      acc.medium_severity +
        rs.countP (fun r => pyUpper (r.severity.getD "") == "MEDIUM") := by
  induction rs generalizing acc with
  | nil => simp
  | cons r t ih =>
    simp [ih, summaryStep, List.countP_cons, severityWeight_medium]
    omega

theorem foldl_summary_low (c : Int) (rs : List Record) (acc : AlertSummary) :
    (rs.foldl (summaryStep c) acc).low_severity =
      acc.low_severity +
        rs.countP (fun r => pyUpper (r.severity.getD "") == "LOW") := by
  induction rs generalizing acc with
  | nil => simp
  | cons r t ih =>
    simp [ih, summaryStep, List.countP_cons, severityWeight_low]
    omega

theorem foldl_summary_lastAlert (c : Int) (rs : List Record) (acc : AlertSummary) :
    (rs.foldl (summaryStep c) acc).last_alert =
      rs.foldl lastAlertStep acc.last_alert := by
  induction rs generalizing acc with
  | nil => rfl
  | cons r t ih => simpa [summaryStep] using ih (summaryStep c acc r)

theorem get_alert_summary_storeWithAlerts (rs : List Record) (now : Int) :
    get_alert_summary (storeWithAlerts rs) now =
      rs.foldl (summaryStep (now - 24 * 3600)) initSummary := by
  simp [get_alert_summary, storeWithAlerts, parseLines_map_some]

/-- The `last_alert` value after folding from `some m`: either no element beat `m`,
or the result is the first element strictly exceeding everything before
it (including `m`) and at least everything after it. -/
theorem foldl_lastAlertStep_spec (rs : List Record) (m : Record) :
    ∃ r, rs.foldl lastAlertStep (some m) = some r ∧
      ((r = m ∧ ∀ x ∈ rs, x.epoch ≤ m.epoch) ∨
       (∃ l1 l2, rs = l1 ++ r :: l2 ∧ m.epoch < r.epoch ∧
         (∀ x ∈ l1, x.epoch < r.epoch) ∧ (∀ x ∈ l2, x.epoch ≤ r.epoch))) := by
  induction rs generalizing m with
  | nil => exact ⟨m, rfl, Or.inl ⟨rfl, by simp⟩⟩
  | cons x t ih =>
    by_cases hx : m.epoch < x.epoch
    · have hfold : (x :: t).foldl lastAlertStep (some m) =
          t.foldl lastAlertStep (some x) := by
        simp [lastAlertStep, hx]
      obtain ⟨r, hr, hcase⟩ := ih x
      refine ⟨r, by rw [hfold]; exact hr, ?_⟩
      rcases hcase with ⟨req, hall⟩ | ⟨l1, l2, ht, hxr, h1, h2⟩
      · subst req
        exact Or.inr ⟨[], t, by simp, hx, by simp, hall⟩
      · refine Or.inr ⟨x :: l1, l2, by simp [ht], lt_trans hx hxr, ?_, h2⟩
        intro y hy
        rcases List.mem_cons.mp hy with hy | hy
        · exact hy ▸ hxr
        · exact h1 y hy
    · have hfold : (x :: t).foldl lastAlertStep (some m) =
          t.foldl lastAlertStep (some m) := by
        simp [lastAlertStep, hx]
      obtain ⟨r, hr, hcase⟩ := ih m
      refine ⟨r, by rw [hfold]; exact hr, ?_⟩
      rcases hcase with ⟨req, hall⟩ | ⟨l1, l2, ht, hmr, h1, h2⟩
      · refine Or.inl ⟨req, ?_⟩
        intro y hy
        rcases List.mem_cons.mp hy with hy | hy
        · exact hy ▸ le_of_not_lt hx
        · exact hall y hy
      · refine Or.inr ⟨x :: l1, l2, by simp [ht], hmr, ?_, h2⟩
        intro y hy
        rcases List.mem_cons.mp hy with hy | hy
        · exact hy ▸ lt_of_le_of_lt (le_of_not_lt hx) hmr
        · exact h1 y hy

theorem severity_partition_one (s : String) :
    (if s == "HIGH" then (1 : Nat) else 0) + (if s == "MEDIUM" then 1 else 0) +
      (if s == "LOW" then 1 else 0) +
      (if !(s == "HIGH" || s == "MEDIUM" || s == "LOW") then 1 else 0) = 1 := by
  by_cases h1 : s = "HIGH"
  · subst h1; decide
  · by_cases h2 : s = "MEDIUM"
    · subst h2; decide
    · by_cases h3 : s = "LOW"
      · subst h3; decide
      · simp [h1, h2, h3]

theorem countP_severity_partition (rs : List Record) :
    rs.countP (fun r => pyUpper (r.severity.getD "") == "HIGH") +
      rs.countP (fun r => pyUpper (r.severity.getD "") == "MEDIUM") +
      rs.countP (fun r => pyUpper (r.severity.getD "") == "LOW") +
      rs.countP (fun r => !(pyUpper (r.severity.getD "") == "HIGH" ||
        pyUpper (r.severity.getD "") == "MEDIUM" ||
        pyUpper (r.severity.getD "") == "LOW")) = rs.length := by
  induction rs with
  | nil => rfl
  | cons r t ih =>
    have h1 := severity_partition_one (pyUpper (r.severity.getD ""))
    simp only [List.countP_cons, List.length_cons]
    omega

theorem recent_alerts_runOps (t0 : Int) (ops : List LogOp) (now hours : Int) :
    get_recent_alerts (runOps (initLogger t0) ops) now hours =
      (ops.map opRecord).filter
        (fun r => r.kind == EventKind.SECURITY_ALERT &&
          decide (now - hours * 3600 < r.epoch)) := by
  have hlog : (runOps (initLogger t0) ops).alertsLog =
      (ops.filterMap opAlertRecord).map some := by
    simpa [initLogger, log_info, writeToLog] using runOps_alertsLog ops (initLogger t0)
  unfold get_recent_alerts
  rw [hlog, parseLines_map_some, filterMap_opAlertRecord, List.filter_filter]
  exact List.filter_congr (fun a _ => by rw [Bool.and_comm])

/-! ### Claim theorems -/

/-- C6: appending a SECURITY_ALERT through `log_alert` invokes the
high-priority notification hook exactly when `severity == "HIGH"`; a
failure raised inside the hook is caught and recorded as an ERROR event
(never propagating — `log_alert` is a total function of the outcome),
while the alert itself always reaches both the alerts and activity logs. -/
theorem C6_high_priority_hook (s : AlertLogger) (sev msg det : String)
    (now : Int) (popup : Except String Unit) :
    (log_alert s sev msg det now popup).notifySent =
      s.notifySent ++ (if sev == "HIGH" then [mkAlertEntry sev msg det now] else []) ∧
    (log_alert s sev msg det now popup).errorLog =
      s.errorLog ++
        (if sev == "HIGH" then
          (match popup with
           | .ok _ => []
           | .error e =>
             [some (mkErrorEntry ("Failed to send system notification: " ++ e) "" now)])
         else []) ∧
    (log_alert s sev msg det now popup).alertsLog =
      s.alertsLog ++ [some (mkAlertEntry sev msg det now)] ∧
    (log_alert s sev msg det now popup).activityLog =
      s.activityLog ++ [some (mkAlertEntry sev msg det now)] :=
  ⟨log_alert_notifySent s sev msg det now popup,
   log_alert_errorLog s sev msg det now popup,
   log_alert_alertsLog s sev msg det now popup,
   log_alert_activityLog s sev msg det now popup⟩

/-- C7: each accepted honeypot connection appends exactly one HIGH alert
whose details carry the caller's address and port, after which a non-empty
decoy banner is sent (when the send does not fail) and the socket closed
after the fixed two-second delay; send/close failures are swallowed and
the accept loop always continues. -/
theorem C7_honeypot_connection (s : AlertLogger) (ip : String) (port : Nat)
    (ts : String) (now : Int) (popup : Except String Unit)
    (sendCloseFails : Bool) :
    (handleConnection s ip port ts now popup sendCloseFails).logger.alertsLog =
      s.alertsLog ++ [some (mkAlertEntry "HIGH"
        "CANARY TRIGGERED - SSH Connection Attempt!"
        (connectionDetails ip port ts) now)] ∧
    (∃ u v, connectionDetails ip port ts = u ++ ip ++ v) ∧
    (∃ u v, connectionDetails ip port ts = u ++ toString port ++ v) ∧
    sshBanner ≠ "" ∧
    (handleConnection s ip port ts now popup sendCloseFails).bannerSent =
      (if sendCloseFails then none else some sshBanner) ∧
    (handleConnection s ip port ts now popup sendCloseFails).closeDelaySeconds = 2 ∧
    (handleConnection s ip port ts now popup sendCloseFails).loopContinues = true := by
  refine ⟨?_, ?_, ?_, ?_, rfl, rfl, rfl⟩
  · simp [handleConnection, log_alert_alertsLog]
  · exact ⟨"\nService: Fake SSH Server\nClient IP: ",
      "\nClient Port: " ++ toString port ++ "\nTime: " ++ ts ++
        "\nLikely Cause: Someone tried to use the fake SSH key\n                        ",
      by simp [connectionDetails, String.append_assoc]⟩
  · exact ⟨"\nService: Fake SSH Server\nClient IP: " ++ ip ++ "\nClient Port: ",
      "\nTime: " ++ ts ++
        "\nLikely Cause: Someone tried to use the fake SSH key\n                        ",
      by simp [connectionDetails, String.append_assoc]⟩
  · decide

/-- C9: `stop()` is idempotent on both detectors: a second call changes
nothing (for the file watcher not even the log), the running flag is
false after the first call, and no error can arise (both stops are total
functions). -/
theorem C9_stop_idempotent :
    (∀ (w : FileWatcher) (s : AlertLogger) (n1 n2 : Int),
      (w.stop s n1).1.stop (w.stop s n1).2 n2 = w.stop s n1 ∧
      (w.stop s n1).1.is_running = false) ∧
    (∀ (m : NetworkMonitor) (s : AlertLogger) (n1 n2 : Int),
      ((m.stop s n1).1.stop (m.stop s n1).2 n2).1 = (m.stop s n1).1 ∧
      (m.stop s n1).1.is_running = false) := by
  constructor
  · intro w s n1 n2
    by_cases h : w.is_running <;> simp [FileWatcher.stop, h]
  · intro m s n1 n2
    exact ⟨rfl, rfl⟩

/-- C10: `log_alert` writes the identical record to the alerts log and
the activity log, so after any operation sequence against a fresh store
the alerts log is a sublist (order-preserving subset) of the activity
log — the activity log is a complete audit trail. -/
theorem C10_activity_audit_trail :
    (∀ (s : AlertLogger) (sev msg det : String) (now : Int)
        (popup : Except String Unit),
      (log_alert s sev msg det now popup).alertsLog =
        s.alertsLog ++ [some (mkAlertEntry sev msg det now)] ∧
      (log_alert s sev msg det now popup).activityLog =
        s.activityLog ++ [some (mkAlertEntry sev msg det now)]) ∧
    (∀ (t0 : Int) (ops : List LogOp),
      (runOps (initLogger t0) ops).alertsLog.Sublist
        (runOps (initLogger t0) ops).activityLog) := by
  constructor
  · intro s sev msg det now popup
    exact ⟨log_alert_alertsLog s sev msg det now popup,
           log_alert_activityLog s sev msg det now popup⟩
  · intro t0 ops
    have aux : ∀ (ops : List LogOp) (s : AlertLogger),
        s.alertsLog.Sublist s.activityLog →
        (runOps s ops).alertsLog.Sublist (runOps s ops).activityLog := by
      intro ops
      induction ops with
      | nil => intro s h; exact h
      | cons op t ih =>
        intro s h
        have hstep : (applyOp s op).alertsLog.Sublist (applyOp s op).activityLog := by
          cases op with
          | opAlert sev msg det now popup =>
            rw [applyOp, log_alert_alertsLog, log_alert_activityLog]
            exact h.append (List.Sublist.refl _)
          | opInfo msg det now =>
            exact (h.trans (List.sublist_append_left _ _))
          | opError msg det now => exact h
          | opExport f now hours =>
            exact (h.trans (List.sublist_append_left _ _))
        simpa [runOps] using ih (applyOp s op) hstep
    exact aux ops (initLogger t0) (List.nil_sublist _)

/-- C2: on the severity sequence `[HIGH, HIGH, MEDIUM, LOW, UNKNOWN]` the
summary reports totals `(5, 2, 1, 1)`; in general, every record counts
toward `total_alerts`, each bucket counts exactly the records whose
uppercased severity names it, and a record with an unrecognized severity
lands in no bucket (summarization never fails on it). -/
theorem C2_summary_counts :
    ((get_alert_summary (storeWithAlerts sampleSeverityRecords) 0).total_alerts = 5 ∧
     (get_alert_summary (storeWithAlerts sampleSeverityRecords) 0).high_severity = 2 ∧
     (get_alert_summary (storeWithAlerts sampleSeverityRecords) 0).medium_severity = 1 ∧
     (get_alert_summary (storeWithAlerts sampleSeverityRecords) 0).low_severity = 1) ∧
    (∀ (rs : List Record) (now : Int),
      (get_alert_summary (storeWithAlerts rs) now).total_alerts = rs.length ∧
      (get_alert_summary (storeWithAlerts rs) now).high_severity =
        rs.countP (fun r => pyUpper (r.severity.getD "") == "HIGH") ∧
      (get_alert_summary (storeWithAlerts rs) now).medium_severity =
        rs.countP (fun r => pyUpper (r.severity.getD "") == "MEDIUM") ∧
      (get_alert_summary (storeWithAlerts rs) now).low_severity =
        rs.countP (fun r => pyUpper (r.severity.getD "") == "LOW") ∧
      (get_alert_summary (storeWithAlerts rs) now).high_severity +
        (get_alert_summary (storeWithAlerts rs) now).medium_severity +
        (get_alert_summary (storeWithAlerts rs) now).low_severity +
        rs.countP (fun r => !(pyUpper (r.severity.getD "") == "HIGH" ||
          pyUpper (r.severity.getD "") == "MEDIUM" ||
          pyUpper (r.severity.getD "") == "LOW")) =
        (get_alert_summary (storeWithAlerts rs) now).total_alerts) := by
  constructor
  · decide
  · intro rs now
    refine ⟨?_, ?_, ?_, ?_, ?_⟩ <;> rw [get_alert_summary_storeWithAlerts]
    · simpa [initSummary] using foldl_summary_total (now - 24 * 3600) rs initSummary
    · simpa [initSummary] using foldl_summary_high (now - 24 * 3600) rs initSummary
    · simpa [initSummary] using foldl_summary_medium (now - 24 * 3600) rs initSummary
    · simpa [initSummary] using foldl_summary_low (now - 24 * 3600) rs initSummary
    · rw [foldl_summary_high, foldl_summary_medium, foldl_summary_low,
        foldl_summary_total]
      have h := countP_severity_partition rs
      simp only [initSummary]
      omega

/-- C3 counterexample: two distinct records share the maximum epoch; the
summary keeps the one at the EARLIER scan position, not the later one the
claim names. -/
theorem C3_counterexample_tie :
    tieRec1.epoch = tieRec2.epoch ∧ tieRec1 ≠ tieRec2 ∧
    (get_alert_summary (storeWithAlerts [tieRec1, tieRec2]) 0).last_alert =
      some tieRec1 ∧
    (get_alert_summary (storeWithAlerts [tieRec1, tieRec2]) 0).last_alert ≠
      some tieRec2 := by
  decide

/-- C3 (amended): `last_alert` is the record with the maximum epoch among
all parsed records, and when several share that maximum the one at the
EARLIEST scan position is kept (a later record replaces it only with a
strictly greater epoch). -/
theorem C3_last_alert_first_max (rs : List Record) (now : Int) (h : rs ≠ []) :
    ∃ r l1 l2, (get_alert_summary (storeWithAlerts rs) now).last_alert = some r ∧
      rs = l1 ++ r :: l2 ∧ (∀ x ∈ l1, x.epoch < r.epoch) ∧
      (∀ x ∈ l2, x.epoch ≤ r.epoch) := by
  obtain ⟨r0, rest, rfl⟩ : ∃ r0 rest, rs = r0 :: rest := by
    cases rs with
    | nil => exact absurd rfl h
    | cons a t => exact ⟨a, t, rfl⟩
  rw [get_alert_summary_storeWithAlerts, foldl_summary_lastAlert]
  have hstep : (r0 :: rest).foldl lastAlertStep initSummary.last_alert =
      rest.foldl lastAlertStep (some r0) := rfl
  rw [hstep]
  obtain ⟨r, hr, hcase⟩ := foldl_lastAlertStep_spec rest r0
  rcases hcase with ⟨req, hall⟩ | ⟨l1, l2, ht, hmr, h1, h2⟩
  · subst req
    exact ⟨r, [], rest, hr, rfl, by simp, hall⟩
  · refine ⟨r, r0 :: l1, l2, hr, by simp [ht], ?_, h2⟩
    intro y hy
    rcases List.mem_cons.mp hy with hy | hy
    · exact hy ▸ hmr
    · exact h1 y hy

theorem C3_last_alert_first_max_witness :
    ∃ r l1 l2,
      (get_alert_summary (storeWithAlerts [tieRec1, tieRec2]) 0).last_alert =
        some r ∧
      [tieRec1, tieRec2] = l1 ++ r :: l2 ∧ (∀ x ∈ l1, x.epoch < r.epoch) ∧
      (∀ x ∈ l2, x.epoch ≤ r.epoch) :=
  C3_last_alert_first_max [tieRec1, tieRec2] 0 (by simp)

/-- C1: against a fresh store, `get_recent_alerts` returns exactly the
appended records with `kind == SECURITY_ALERT` and `epoch` strictly above
`now - hours*3600`, in insertion order; with a window below every epoch
it returns exactly the SECURITY_ALERT subset; and on epochs
`{t-3600-1, t-3600+1, t}` the 3600-second window drops the first and
keeps the latter two. -/
theorem C1_recent_alerts_roundtrip :
    (∀ (t0 : Int) (ops : List LogOp) (now hours : Int),
      get_recent_alerts (runOps (initLogger t0) ops) now hours =
        (ops.map opRecord).filter
          (fun r => r.kind == EventKind.SECURITY_ALERT &&
            decide (now - hours * 3600 < r.epoch))) ∧
    (∀ (t0 : Int) (ops : List LogOp) (now hours : Int),
      (∀ op ∈ ops, now - hours * 3600 < (opRecord op).epoch) →
      get_recent_alerts (runOps (initLogger t0) ops) now hours =
        (ops.map opRecord).filter
          (fun r => r.kind == EventKind.SECURITY_ALERT)) ∧
    (∀ t : Int,
      get_recent_alerts (runOps (initLogger 0)
        [LogOp.opAlert "HIGH" "m1" "" (t - 3600 - 1) (Except.ok ()),
         LogOp.opAlert "HIGH" "m2" "" (t - 3600 + 1) (Except.ok ()),
         LogOp.opAlert "HIGH" "m3" "" t (Except.ok ())]) t 1 =
        [mkAlertEntry "HIGH" "m2" "" (t - 3600 + 1),
         mkAlertEntry "HIGH" "m3" "" t]) := by
  refine ⟨recent_alerts_runOps, ?_, ?_⟩
  · intro t0 ops now hours h
    rw [recent_alerts_runOps]
    refine List.filter_congr ?_
    intro a ha
    obtain ⟨op, hop, rfl⟩ := List.mem_map.mp ha
    simp [h op hop]
  · intro t
    have h1 : ¬(t - 1 * 3600 < t - 3600 - 1) := by omega
    have h2 : t - 1 * 3600 < t - 3600 + 1 := by omega
    have h3 : t - 1 * 3600 < t := by omega
    rw [recent_alerts_runOps]
    simp [opRecord, mkAlertEntry, h1, h2, h3]

theorem C1_recent_alerts_roundtrip_witness :
    get_recent_alerts (runOps (initLogger 0)
      [LogOp.opInfo "boot" "" 5, LogOp.opAlert "HIGH" "m" "x" 10 (Except.ok ())])
      10 24 =
      ([LogOp.opInfo "boot" "" 5,
        LogOp.opAlert "HIGH" "m" "x" 10 (Except.ok ())].map opRecord).filter
        (fun r => r.kind == EventKind.SECURITY_ALERT) ∧
    ([LogOp.opInfo "boot" "" 5,
      LogOp.opAlert "HIGH" "m" "x" 10 (Except.ok ())].map opRecord).filter
        (fun r => r.kind == EventKind.SECURITY_ALERT) =
      [mkAlertEntry "HIGH" "m" "x" 10] :=
  ⟨C1_recent_alerts_roundtrip.2.1 0
    [LogOp.opInfo "boot" "" 5, LogOp.opAlert "HIGH" "m" "x" 10 (Except.ok ())]
    10 24 (by decide), by decide⟩

/-- C4: `on_any_event` discards every directory event; on a non-directory
event it turns subtype `opened`/`accessed` into exactly one HIGH alert and
`modified`/`moved`/`deleted` into exactly one MEDIUM alert. -/
theorem C4_event_classification (s : AlertLogger) (e : FSEvent) (ts : String)
    (info : SystemInfo) (now : Int) (popup : Except String Unit) :
    (e.is_directory = true → on_any_event s e ts info now popup = s) ∧
    (e.is_directory = false →
      (e.event_type = "opened" ∨ e.event_type = "accessed") →
      (on_any_event s e ts info now popup).alertsLog =
        s.alertsLog ++ [some (mkAlertEntry "HIGH"
          "CANARY TRIGGERED - File Access Detected!"
          (accessDetails e ts info) now)]) ∧
    (e.is_directory = false →
      (e.event_type = "modified" ∨ e.event_type = "moved" ∨
        e.event_type = "deleted") →
      (on_any_event s e ts info now popup).alertsLog =
        s.alertsLog ++ [some (mkAlertEntry "MEDIUM"
          ("Canary File Modified - " ++ e.event_type)
          (modificationDetails e ts info) now)]) := by
  refine ⟨?_, ?_, ?_⟩
  · intro hd
    simp [on_any_event, hd]
  · intro hd hty
    rcases hty with h | h <;>
      simp [on_any_event, hd, h, handleFileAccess, log_alert_alertsLog]
  · intro hd hty
    rcases hty with h | h | h <;>
      simp [on_any_event, hd, h, handleFileModification, log_alert_alertsLog]

theorem C4_event_classification_witness :
    (on_any_event (initLogger 0)
      { event_type := "opened", src_path := "/tmp/canary/id_rsa",
        is_directory := false }
      "2025-01-01 00:00:00" { hostname := "h", os := "o", user := "u" }
      5 (Except.ok ())).alertsLog =
      (initLogger 0).alertsLog ++ [some (mkAlertEntry "HIGH"
        "CANARY TRIGGERED - File Access Detected!"
        (accessDetails
          { event_type := "opened", src_path := "/tmp/canary/id_rsa",
            is_directory := false }
          "2025-01-01 00:00:00" { hostname := "h", os := "o", user := "u" }) 5)] :=
  (C4_event_classification (initLogger 0)
    { event_type := "opened", src_path := "/tmp/canary/id_rsa",
      is_directory := false }
    "2025-01-01 00:00:00" { hostname := "h", os := "o", user := "u" }
    5 (Except.ok ())).2.1 rfl (Or.inl rfl)

/-- C5 evaluated at the failing input: an in-window error record sits in
the error log, yet the exported snapshot's `errors` sequence is empty —
`export_logs` never reads the error log (for any store its `errors`
output is `[]`). -/
theorem C5_errors_never_exported :
    parseLines storeWithErr.errorLog = [errSample] ∧
    (1000 : Int) - 24 * 3600 < errSample.epoch ∧
    (export_logs storeWithErr "out.json" 1000 24).1.errors = [] ∧
    (∀ (s : AlertLogger) (f : String) (now hours : Int),
      (export_logs s f now hours).1.errors = []) :=
  ⟨rfl, by decide, rfl, fun _ _ _ _ => rfl⟩

/-- C8: one malformed line between two well-formed records is skipped by
every read pass: parsing yields exactly the two records, the three read
operations agree with the clean store, the malformed line reaches no
summary bucket, and nothing fails. -/
theorem C8_malformed_line_skipped (r1 r2 a1 a2 : Record) (f : String)
    (now hours : Int) :
    parseLines (storeMal r1 r2 a1 a2).alertsLog = [r1, r2] ∧
    parseLines (storeMal r1 r2 a1 a2).activityLog = [a1, a2] ∧
    get_recent_alerts (storeMal r1 r2 a1 a2) now hours =
      get_recent_alerts (storeClean r1 r2 a1 a2) now hours ∧
    get_alert_summary (storeMal r1 r2 a1 a2) now =
      get_alert_summary (storeClean r1 r2 a1 a2) now ∧
    (get_alert_summary (storeMal r1 r2 a1 a2) now).total_alerts = 2 ∧
    (export_logs (storeMal r1 r2 a1 a2) f now hours).1 =
      (export_logs (storeClean r1 r2 a1 a2) f now hours).1 ∧
    (now - hours * 3600 < r1.epoch → now - hours * 3600 < r2.epoch →
      get_recent_alerts (storeMal r1 r2 a1 a2) now hours = [r1, r2]) := by
  refine ⟨rfl, rfl, rfl, rfl, rfl, rfl, ?_⟩
  intro h1 h2
  simp [get_recent_alerts, storeMal, parseLines, h1, h2]

theorem C8_malformed_line_skipped_witness :
    get_recent_alerts
      (storeMal (mkAlertEntry "HIGH" "w1" "" 100) (mkAlertEntry "LOW" "w2" "" 200)
        (mkInfoEntry "w3" "" 150) (mkInfoEntry "w4" "" 160)) 200 24 =
      [mkAlertEntry "HIGH" "w1" "" 100, mkAlertEntry "LOW" "w2" "" 200] :=
  (C8_malformed_line_skipped (mkAlertEntry "HIGH" "w1" "" 100)
    (mkAlertEntry "LOW" "w2" "" 200) (mkInfoEntry "w3" "" 150)
    (mkInfoEntry "w4" "" 160) "out.json" 200 24).2.2.2.2.2.2
    (by decide) (by decide)

end HoneyHawk
